/-
Verification of the simdjson C wrapper (src/vendor/simdjson-wrapper.cpp).

The wrapper exposes the external simdjson engine through a flat C interface:
opaque handles, integer status codes, and a pointer+length string view.  We
shallowly embed the wrapper functions here.  Memory is a map from byte
addresses to bytes; a caller buffer is a base address plus a length; null
pointers are `Option.none`.  Calls into the external engine are modelled by an
`Engine` record whose operations return an `EngineOutcome`: a value, a native
nonzero error code, or a thrown exception.  The wrapper's try/catch blocks
become pattern matches on that outcome.  An output parameter `T*` is modelled
by a `Bool` saying whether the pointer is non-null, together with an
`Option T` in the result holding the value written, `none` meaning the output
location was left untouched.

The engine itself is not part of the repository; a concrete instance
`miniEngine` is modelled from the specification for the inputs its testable
properties exercise.
-/
import Mathlib

/-- Caller-visible memory: a total map from byte addresses to byte values. -/
abbrev Mem := Nat → Nat

/-- The byte range starting at address `base` of length `len`, as a list. -/
def readBytes (m : Mem) (base len : Nat) : List Nat :=
  (List.range len).map (fun i => m (base + i))

/-- Memory holding the byte list `bs` starting at address 0 (0 elsewhere). -/
def listMem (bs : List Nat) : Mem := fun i => bs.getD i 0

/-- Outcome of one call into the external engine: a value (`error() == 0`,
with `value_unsafe()` giving `a`), a native nonzero error code, or a thrown
exception.  The code in `err` carries the engine invariant that native error
codes are nonzero (`error_code::SUCCESS` is 0 and means no error). -/
inductive EngineOutcome (α : Type) where
  | ok (a : α)
  | err (code : Int) (hcode : code ≠ 0)
  | exn

/-- The simdjson `ondemand::json_type` enumeration. -/
inductive JsonType where
  | array
  | object
  | number
  | string
  | boolean
  | null
deriving DecidableEq

/-- The external engine's primitives as used by the wrapper, over an abstract
value type `V` (simdjson's `ondemand::value`).  `parse_into_document` reads
the byte range `[base, base+len)` of the given memory and yields the root
value; the `get_*` fields and `type` are the methods called on a value. -/
structure Engine (V : Type) where
  parse_into_document : Mem → Nat → Nat → EngineOutcome V
  get_string : V → EngineOutcome (Nat × Nat)
  get_int64 : V → EngineOutcome Int
  get_uint64 : V → EngineOutcome Nat
  get_bool : V → EngineOutcome Bool
  get_double : V → EngineOutcome Rat
  type : V → EngineOutcome JsonType

/-- `SimdJsonParserImpl`: holds the engine parsing context, which has no
observable state in this model. -/
structure SimdJsonParserImpl where
  parserCtx : Unit
deriving DecidableEq

/-- `SimdJsonDocumentImpl`: the record allocated by the parse entry point.
`stream` stands for the `ondemand::document_stream` field, which the wrapper
default-constructs and never assigns or reads; we give it an opaque numeric
stand-in so that independence from it can be stated.  `json_data` is the
stored buffer pointer (a byte address), `json_len` the stored length. -/
structure SimdJsonDocumentImpl where
  stream : Nat
  json_data : Nat
  json_len : Nat
deriving DecidableEq

/-- `SimdJsonElementImpl`: holds one engine value (`ondemand::value`). -/
structure SimdJsonElementImpl (V : Type) where
  value : V

instance {V : Type} [DecidableEq V] : DecidableEq (SimdJsonElementImpl V) :=
  fun a b =>
    if h : a.value = b.value then .isTrue (by cases a; cases b; simpa using h)
    else .isFalse (by intro he; exact h (congrArg SimdJsonElementImpl.value he))

/-- `simdjson_create_parser`: allocates a fresh context; `new` throwing
(allocation failure) is modelled by `alloc_ok = false` and yields null. -/
def simdjson_createParser (alloc_ok : Bool) : Option SimdJsonParserImpl :=
  if alloc_ok then some ⟨()⟩ else none

/-- `simdjson_parse`: null checks on the three pointer arguments yield -1;
otherwise the engine parses `[json, json+len)`; a native error code is
returned unchanged; an exception becomes -1; on success a document record
storing the buffer pointer and length (stream field default-initialised) is
allocated, written to `*out_doc`, and 0 is returned.  The second component is
what was written to `*out_doc` (`none`: untouched, nothing allocated). -/
def simdjson_parse {V : Type} (E : Engine V) (mem : Mem)
    (parser_ptr : Option SimdJsonParserImpl) (json : Option Nat) (len : Nat)
    (out_doc : Bool) : Int × Option SimdJsonDocumentImpl :=
  match parser_ptr, json, out_doc with
  | some _, some jptr, true =>
    match E.parse_into_document mem jptr len with
    | .err code _ => (code, none)
    | .exn => (-1, none)
    | .ok _ => (0, some { stream := 0, json_data := jptr, json_len := len })
  | _, _, _ => (-1, none)

/-- `simdjson_document_root`: null document handle yields null; otherwise a
fresh engine parsing context is created for this call alone and the stored
(buffer, length) pair is re-parsed; on error or exception null is returned,
otherwise an element holding the re-parse's root value. -/
def simdjson_document_root {V : Type} (E : Engine V) (mem : Mem)
    (doc_ptr : Option SimdJsonDocumentImpl) : Option (SimdJsonElementImpl V) :=
  match doc_ptr with
  | none => none
  | some doc =>
    match E.parse_into_document mem doc.json_data doc.json_len with
    | .err _ _ => none
    | .exn => none
    | .ok v => some ⟨v⟩

/-- `simdjson_element_get_string`: null checks yield -1; a native error code
from `get_string` is returned unchanged with the output untouched; an
exception becomes -1; on success the engine's (pointer, length) view is
written and 0 returned. -/
def simdjson_element_get_string {V : Type} (E : Engine V)
    (elem_ptr : Option (SimdJsonElementImpl V)) (out_str : Bool) :
    Int × Option (Nat × Nat) :=
  match elem_ptr, out_str with
  | some elem, true =>
    match E.get_string elem.value with
    | .err code _ => (code, none)
    | .exn => (-1, none)
    | .ok sv => (0, some sv)
  | _, _ => (-1, none)

/-- `simdjson_element_get_int64`: same contract shape as `get_string`. -/
def simdjson_element_get_int64 {V : Type} (E : Engine V)
    (elem_ptr : Option (SimdJsonElementImpl V)) (out_val : Bool) :
    Int × Option Int :=
  match elem_ptr, out_val with
  | some elem, true =>
    match E.get_int64 elem.value with
    | .err code _ => (code, none)
    | .exn => (-1, none)
    | .ok n => (0, some n)
  | _, _ => (-1, none)

/-- `simdjson_element_get_uint64`: same contract shape as `get_string`. -/
def simdjson_element_get_uint64 {V : Type} (E : Engine V)
    (elem_ptr : Option (SimdJsonElementImpl V)) (out_val : Bool) :
    Int × Option Nat :=
  match elem_ptr, out_val with
  | some elem, true =>
    match E.get_uint64 elem.value with
    | .err code _ => (code, none)
    | .exn => (-1, none)
    | .ok n => (0, some n)
  | _, _ => (-1, none)

/-- `simdjson_element_get_double`: same contract shape as `get_string`. -/
def simdjson_element_get_double {V : Type} (E : Engine V)
    (elem_ptr : Option (SimdJsonElementImpl V)) (out_val : Bool) :
    Int × Option Rat :=
  match elem_ptr, out_val with
  | some elem, true =>
    match E.get_double elem.value with
    | .err code _ => (code, none)
    | .exn => (-1, none)
    | .ok q => (0, some q)
  | _, _ => (-1, none)

/-- `simdjson_element_get_bool`: same contract shape; the boolean is written
as the C int `value ? 1 : 0`. -/
def simdjson_element_get_bool {V : Type} (E : Engine V)
    (elem_ptr : Option (SimdJsonElementImpl V)) (out_val : Bool) :
    Int × Option Int :=
  match elem_ptr, out_val with
  | some elem, true =>
    match E.get_bool elem.value with
    | .err code _ => (code, none)
    | .exn => (-1, none)
    | .ok b => (0, some (if b then 1 else 0))
  | _, _ => (-1, none)

/-- `simdjson_element_is_object`: 0 on a null handle, on a type-resolution
error, on an exception, and on a genuine mismatch; 1 exactly when the
resolved type is `object`. -/
def simdjson_element_is_object {V : Type} (E : Engine V)
    (elem_ptr : Option (SimdJsonElementImpl V)) : Int :=
  match elem_ptr with
  | none => 0
  | some elem =>
    match E.type elem.value with
    | .err _ _ => 0
    | .exn => 0
    | .ok t => if t = JsonType.object then 1 else 0

/-- `simdjson_element_is_array`: as `is_object`, for type `array`. -/
def simdjson_element_is_array {V : Type} (E : Engine V)
    (elem_ptr : Option (SimdJsonElementImpl V)) : Int :=
  match elem_ptr with
  | none => 0
  | some elem =>
    match E.type elem.value with
    | .err _ _ => 0
    | .exn => 0
    | .ok t => if t = JsonType.array then 1 else 0

/-- `simdjson_element_is_null`: as `is_object`, for type `null`. -/
def simdjson_element_is_null {V : Type} (E : Engine V)
    (elem_ptr : Option (SimdJsonElementImpl V)) : Int :=
  match elem_ptr with
  | none => 0
  | some elem =>
    match E.type elem.value with
    | .err _ _ => 0
    | .exn => 0
    | .ok t => if t = JsonType.null then 1 else 0

/-- Modelled from the spec: the engine's value model (`ondemand::value`) for
the root forms that the specification's testable properties exercise: null,
booleans, integers, escape-free strings, and the empty object and array.  A
string value is a zero-copy view into the input buffer, recorded as a byte
address just past the opening quote together with the content length. -/
inductive JValue where
  | jnull
  | jbool (b : Bool)
  | jint (n : Int)
  | jstr (ptr len : Nat)
  | jobject
  | jarray
deriving DecidableEq

/-- Modelled from the spec: the engine's native malformed-input code for a
generic structural error (representative nonzero value). -/
def TAPE_ERROR : Int := 3

/-- Modelled from the spec: the engine's native type-mismatch code, returned
unchanged by the extraction operations (representative nonzero value). -/
def INCORRECT_TYPE : Int := 16

/-- `c` is the byte of a decimal digit. -/
def isDigit (c : Nat) : Bool := 48 ≤ c && c ≤ 57

/-- Decimal value of a digit-byte list. -/
def digitsToNat (ds : List Nat) : Nat :=
  ds.foldl (fun acc d => acc * 10 + (d - 48)) 0

/-- Modelled from the spec: the engine's parse of the byte list `bytes`
located at address `base`, producing the root value.  Covers the root forms
named in `JValue`; every other input is reported as malformed with a native
nonzero code.  A string root becomes a view at address `base + 1` (just past
the opening quote) of the content length. -/
def parseBytes (bytes : List Nat) (base : Nat) : EngineOutcome JValue :=
  if bytes = [110, 117, 108, 108] then .ok .jnull
  else if bytes = [116, 114, 117, 101] then .ok (.jbool true)
  else if bytes = [102, 97, 108, 115, 101] then .ok (.jbool false)
  else if bytes = [123, 125] then .ok .jobject
  else if bytes = [91, 93] then .ok .jarray
  else
    match bytes with
    | 34 :: rest =>
      if rest.getLast? = some 34
          && rest.dropLast.all (fun c => decide (c ≠ 34) && decide (c ≠ 92)) then
        .ok (.jstr (base + 1) rest.dropLast.length)
      else .err TAPE_ERROR (by decide)
    | 45 :: ds =>
      if !ds.isEmpty && ds.all isDigit then .ok (.jint (-(digitsToNat ds : Int)))
      else .err TAPE_ERROR (by decide)
    | ds =>
      if !ds.isEmpty && ds.all isDigit then .ok (.jint (digitsToNat ds))
      else .err TAPE_ERROR (by decide)

/-- Modelled from the spec: the engine's parse over exactly the byte range
`[base, base+len)` of the memory. -/
def mini_parse (mem : Mem) (base len : Nat) : EngineOutcome JValue :=
  parseBytes (readBytes mem base len) base

/-- Modelled from the spec: `get_string` succeeds exactly on a string value
and yields its zero-copy (pointer, length) view into the input buffer;
otherwise the native type-mismatch code. -/
def mini_get_string : JValue → EngineOutcome (Nat × Nat)
  | .jstr p l => .ok (p, l)
  | _ => .err INCORRECT_TYPE (by decide)

/-- Modelled from the spec: `get_int64` succeeds exactly on an integer value
within int64 range; otherwise the native type-mismatch code. -/
def mini_get_int64 : JValue → EngineOutcome Int
  | .jint n =>
    if -(2 ^ 63) ≤ n ∧ n < 2 ^ 63 then .ok n else .err INCORRECT_TYPE (by decide)
  | _ => .err INCORRECT_TYPE (by decide)

/-- Modelled from the spec: `get_uint64` succeeds exactly on a nonnegative
integer value within uint64 range; otherwise the native type-mismatch code. -/
def mini_get_uint64 : JValue → EngineOutcome Nat
  | .jint n =>
    if 0 ≤ n ∧ n < 2 ^ 64 then .ok n.toNat else .err INCORRECT_TYPE (by decide)
  | _ => .err INCORRECT_TYPE (by decide)

/-- Modelled from the spec: `get_bool` succeeds exactly on a boolean value;
otherwise the native type-mismatch code. -/
def mini_get_bool : JValue → EngineOutcome Bool
  | .jbool b => .ok b
  | _ => .err INCORRECT_TYPE (by decide)

/-- Modelled from the spec: `get_double` succeeds on a numeric value (in this
model, integers, converted exactly); otherwise the native type-mismatch
code. -/
def mini_get_double : JValue → EngineOutcome Rat
  | .jint n => .ok (n : Rat)
  | _ => .err INCORRECT_TYPE (by decide)

/-- Modelled from the spec: the engine's `type()` query, total on resolved
values. -/
def mini_type : JValue → EngineOutcome JsonType
  | .jnull => .ok .null
  | .jbool _ => .ok .boolean
  | .jint _ => .ok .number
  | .jstr _ _ => .ok .string
  | .jobject => .ok .object
  | .jarray => .ok .array

/-- Modelled from the spec: the concrete external engine instance used for
the specification's concrete testable properties. -/
def miniEngine : Engine JValue :=
  { parse_into_document := mini_parse
    get_string := mini_get_string
    get_int64 := mini_get_int64
    get_uint64 := mini_get_uint64
    get_bool := mini_get_bool
    get_double := mini_get_double
    type := mini_type }

/-- An engine whose every call throws; used to exercise the wrapper's
exception boundary. -/
def exnEngine : Engine Unit :=
  { parse_into_document := fun _ _ _ => .exn
    get_string := fun _ => .exn
    get_int64 := fun _ => .exn
    get_uint64 := fun _ => .exn
    get_bool := fun _ => .exn
    get_double := fun _ => .exn
    type := fun _ => .exn }

/-- The 7-byte JSON document consisting of the string literal hello. -/
def helloBytes : List Nat := [34, 104, 101, 108, 108, 111, 34]

/-- Memory holding the hello document at address 0. -/
def helloMem : Mem := listMem helloBytes

/-- The 9-byte list of the characters backslash, quote, h, e, l, l, o,
backslash, quote: the escaped rendering of the hello document. -/
def hello9Bytes : List Nat := [92, 34, 104, 101, 108, 108, 111, 92, 34]

/-- Memory holding the 9-byte escaped rendering at address 0. -/
def hello9Mem : Mem := listMem hello9Bytes

/-- Memory holding the 2-byte document 42 at address 0. -/
def mem42 : Mem := listMem [52, 50]

/-- Memory holding the 4-byte document null at address 0. -/
def memNull : Mem := listMem [110, 117, 108, 108]

/-- Memory holding the 1-byte malformed document x at address 0. -/
def memX : Mem := listMem [120]

/-- Following the specification's words for the root-access hazard: the root
is resolved by re-invoking the engine's parse routine on the (buffer, length)
pair stored in the Document record, in a parsing context fresh to this call
alone, and the element returned holds the root value of that re-parse; null
on a null handle or any failure. -/
def rootOfSpecFreshReparse {V : Type} (E : Engine V) (mem : Mem) :
    Option SimdJsonDocumentImpl → Option (SimdJsonElementImpl V)
  | none => none
  | some doc =>
    match E.parse_into_document mem doc.json_data doc.json_len with
    | .ok v => some ⟨v⟩
    | .err _ _ => none
    | .exn => none

/-- The outcome reports a native error code (`error()` nonzero). -/
def EngineOutcome.reportsError {α : Type} : EngineOutcome α → Prop
  | .err _ _ => True
  | _ => False

/-- The outcome is a thrown exception. -/
def EngineOutcome.raised {α : Type} : EngineOutcome α → Prop
  | .exn => True
  | _ => False

theorem readBytes_length (m : Mem) (base len : Nat) :
    (readBytes m base len).length = len := by
  simp [readBytes]

theorem parseBytes_jstr_bounds (bytes : List Nat) (base p l : Nat)
    (h : parseBytes bytes base = .ok (.jstr p l)) :
    p = base + 1 ∧ p + l ≤ base + bytes.length := by
  unfold parseBytes at h
  repeat' split at h
  all_goals simp_all [List.length_dropLast]
  all_goals omega

/-- C1: `simdjson_document_root` resolves the root by re-invoking the
engine's parse routine on the (buffer, length) pair stored in the Document
record, in a fresh parsing context scoped to that call, and its result
coincides for all documents storing the same pair regardless of the parse
state (`stream` field) left by the original Parse call: the Element is the
root of the fresh re-parse, not a view over the stored parse result. -/
theorem c1_root_is_fresh_reparse :
    ∀ (V : Type) (E : Engine V) (mem : Mem),
      (∀ doc_ptr, simdjson_document_root E mem doc_ptr
          = rootOfSpecFreshReparse E mem doc_ptr)
    ∧ (∀ (s₁ s₂ jd jl : Nat),
        simdjson_document_root E mem
            (some { stream := s₁, json_data := jd, json_len := jl })
          = simdjson_document_root E mem
            (some { stream := s₂, json_data := jd, json_len := jl })) := by
  intro V E mem
  constructor
  · intro doc_ptr
    cases doc_ptr with
    | none => rfl
    | some d =>
      cases h : E.parse_into_document mem d.json_data d.json_len <;>
        simp [simdjson_document_root, rootOfSpecFreshReparse, h]
  · intro s₁ s₂ jd jl
    rfl

/-- C3: on an engine parse failure, `simdjson_parse` returns the engine's
native error code unchanged (nonzero), leaves the output document location
untouched, and allocates no Document record. -/
theorem c3_parse_failure_passthrough :
    ∀ (V : Type) (E : Engine V) (mem : Mem) (p : SimdJsonParserImpl)
      (jptr len : Nat) (c : Int) (hc : c ≠ 0),
      E.parse_into_document mem jptr len = .err c hc →
      simdjson_parse E mem (some p) (some jptr) len true = (c, none) ∧ c ≠ 0 := by
  intro V E mem p jptr len c hc h
  exact ⟨by simp [simdjson_parse, h], hc⟩

/-- C3 witness: parsing the malformed 1-byte document x with the modelled
engine returns its native structural-error code and no document. -/
theorem c3_parse_failure_witness :
    simdjson_parse miniEngine memX (some ⟨()⟩) (some 0) 1 true
      = (TAPE_ERROR, none) ∧ TAPE_ERROR ≠ 0 :=
  c3_parse_failure_passthrough JValue miniEngine memX ⟨()⟩ 0 1 TAPE_ERROR
    (by decide) rfl

/-- C6: a null parser handle makes `simdjson_parse` return the fixed generic
code -1 with the output untouched, for every engine and every remaining
argument; a null element handle makes each extraction operation return -1
with the output untouched, for every engine — never a native code, without
invoking the engine. -/
theorem c6_null_handle_generic_code :
    (∀ (V : Type) (E : Engine V) (mem : Mem) (json : Option Nat) (len : Nat)
      (out_doc : Bool),
      simdjson_parse E mem none json len out_doc = (-1, none))
  ∧ (∀ (V : Type) (E : Engine V) (out : Bool),
      simdjson_element_get_string E none out = (-1, none)
    ∧ simdjson_element_get_int64 E none out = (-1, none)
    ∧ simdjson_element_get_uint64 E none out = (-1, none)
    ∧ simdjson_element_get_double E none out = (-1, none)
    ∧ simdjson_element_get_bool E none out = (-1, none)) := by
  constructor
  · intro V E mem json len out_doc
    cases json <;> cases out_doc <;> rfl
  · intro V E out
    cases out <;> exact ⟨rfl, rfl, rfl, rfl, rfl⟩

/-- C7: on an engine parse success, `simdjson_parse` returns status 0 and
writes a Document record storing exactly the caller's buffer pointer and
length (the address and the length, not a copy of the bytes; stream field
default-initialised); moreover the modelled engine is invoked over exactly
the byte range starting at the buffer pointer of the given length: the
result depends on the memory only through that range. -/
theorem c7_parse_success_stores_buffer :
    (∀ (V : Type) (E : Engine V) (mem : Mem) (p : SimdJsonParserImpl)
      (jptr len : Nat) (v : V),
      E.parse_into_document mem jptr len = .ok v →
      simdjson_parse E mem (some p) (some jptr) len true
        = (0, some { stream := 0, json_data := jptr, json_len := len }))
  ∧ (∀ (mem₁ mem₂ : Mem) (p : SimdJsonParserImpl) (jptr len : Nat)
      (out_doc : Bool),
      readBytes mem₁ jptr len = readBytes mem₂ jptr len →
      simdjson_parse miniEngine mem₁ (some p) (some jptr) len out_doc
        = simdjson_parse miniEngine mem₂ (some p) (some jptr) len out_doc) := by
  constructor
  · intro V E mem p jptr len v h
    simp [simdjson_parse, h]
  · intro mem₁ mem₂ p jptr len out_doc h
    cases out_doc with
    | false => rfl
    | true => simp [simdjson_parse, miniEngine, mini_parse, h]

/-- C7 witness: parsing the 2-byte document 42 at address 0 succeeds with
status 0 and a record storing pointer 0 and length 2. -/
theorem c7_parse_success_witness :
    simdjson_parse miniEngine mem42 (some ⟨()⟩) (some 0) 2 true
      = (0, some { stream := 0, json_data := 0, json_len := 2 }) :=
  c7_parse_success_stores_buffer.1 JValue miniEngine mem42 ⟨()⟩ 0 2
    (.jint 42) rfl

/-- C10: a null output pointer makes each extraction operation return -1
without invoking the engine, even on a live element handle; `simdjson_parse`
with a null buffer pointer or a null output-document pointer likewise
returns -1 without invoking the engine. -/
theorem c10_null_output_pointer_guard :
    (∀ (V : Type) (E : Engine V) (v : V),
      simdjson_element_get_string E (some ⟨v⟩) false = (-1, none)
    ∧ simdjson_element_get_int64 E (some ⟨v⟩) false = (-1, none)
    ∧ simdjson_element_get_uint64 E (some ⟨v⟩) false = (-1, none)
    ∧ simdjson_element_get_double E (some ⟨v⟩) false = (-1, none)
    ∧ simdjson_element_get_bool E (some ⟨v⟩) false = (-1, none))
  ∧ (∀ (V : Type) (E : Engine V) (mem : Mem) (p : SimdJsonParserImpl)
      (len : Nat) (out_doc : Bool),
      simdjson_parse E mem (some p) none len out_doc = (-1, none))
  ∧ (∀ (V : Type) (E : Engine V) (mem : Mem) (p : SimdJsonParserImpl)
      (jptr len : Nat),
      simdjson_parse E mem (some p) (some jptr) len false = (-1, none)) := by
  refine ⟨fun V E v => ⟨rfl, rfl, rfl, rfl, rfl⟩, fun V E mem p len out_doc => ?_,
    fun V E mem p jptr len => rfl⟩
  cases out_doc <;> rfl

/-- C4: no exception crosses the boundary: whenever an engine call throws,
the status-returning operations return the reserved internal-error code -1
with the output untouched, the handle-returning operations (create, root)
return null, and the introspection operations return 0. -/
theorem c4_exception_boundary :
    (∀ (V : Type) (E : Engine V) (mem : Mem) (p : SimdJsonParserImpl)
      (jptr len : Nat),
      E.parse_into_document mem jptr len = .exn →
      simdjson_parse E mem (some p) (some jptr) len true = (-1, none))
  ∧ simdjson_createParser false = none
  ∧ (∀ (V : Type) (E : Engine V) (mem : Mem) (d : SimdJsonDocumentImpl),
      E.parse_into_document mem d.json_data d.json_len = .exn →
      simdjson_document_root E mem (some d) = none)
  ∧ (∀ (V : Type) (E : Engine V) (v : V),
      (E.get_string v = .exn →
        simdjson_element_get_string E (some ⟨v⟩) true = (-1, none))
    ∧ (E.get_int64 v = .exn →
        simdjson_element_get_int64 E (some ⟨v⟩) true = (-1, none))
    ∧ (E.get_uint64 v = .exn →
        simdjson_element_get_uint64 E (some ⟨v⟩) true = (-1, none))
    ∧ (E.get_double v = .exn →
        simdjson_element_get_double E (some ⟨v⟩) true = (-1, none))
    ∧ (E.get_bool v = .exn →
        simdjson_element_get_bool E (some ⟨v⟩) true = (-1, none))
    ∧ (E.type v = .exn →
        simdjson_element_is_object E (some ⟨v⟩) = 0
        ∧ simdjson_element_is_array E (some ⟨v⟩) = 0
        ∧ simdjson_element_is_null E (some ⟨v⟩) = 0)) := by
  refine ⟨fun V E mem p jptr len h => by simp [simdjson_parse, h], rfl,
    fun V E mem d h => by simp [simdjson_document_root, h],
    fun V E v => ⟨fun h => by simp [simdjson_element_get_string, h],
      fun h => by simp [simdjson_element_get_int64, h],
      fun h => by simp [simdjson_element_get_uint64, h],
      fun h => by simp [simdjson_element_get_double, h],
      fun h => by simp [simdjson_element_get_bool, h],
      fun h => ⟨by simp [simdjson_element_is_object, h],
        by simp [simdjson_element_is_array, h],
        by simp [simdjson_element_is_null, h]⟩⟩⟩

/-- C4 witness: against an engine whose every call throws, parse returns
(-1, untouched), root returns null, string extraction returns (-1,
untouched), and object introspection returns 0. -/
theorem c4_exception_boundary_witness :
    simdjson_parse exnEngine (listMem []) (some ⟨()⟩) (some 0) 0 true
      = (-1, none)
    ∧ simdjson_document_root exnEngine (listMem [])
        (some { stream := 0, json_data := 0, json_len := 0 }) = none
    ∧ simdjson_element_get_string exnEngine (some ⟨()⟩) true = (-1, none)
    ∧ simdjson_element_is_object exnEngine (some ⟨()⟩) = 0 :=
  ⟨c4_exception_boundary.1 Unit exnEngine (listMem []) ⟨()⟩ 0 0 rfl,
   c4_exception_boundary.2.2.1 Unit exnEngine (listMem [])
     { stream := 0, json_data := 0, json_len := 0 } rfl,
   (c4_exception_boundary.2.2.2 Unit exnEngine ()).1 rfl,
   ((c4_exception_boundary.2.2.2 Unit exnEngine ()).2.2.2.2.2 rfl).1⟩

/-- C5: when the engine reports a type-mismatch on an extraction, the
operation returns the native code unchanged (nonzero) and leaves the output
untouched, for each of the five extraction operations; concretely, parsing
the document 42 and taking the root, GetInt64 yields status 0 with value 42
while GetString on the same root yields the nonzero type-mismatch code with
output untouched. -/
theorem c5_type_mismatch_passthrough :
    (∀ (V : Type) (E : Engine V) (v : V) (c : Int) (hc : c ≠ 0),
      (E.get_string v = .err c hc →
        simdjson_element_get_string E (some ⟨v⟩) true = (c, none) ∧ c ≠ 0)
    ∧ (E.get_int64 v = .err c hc →
        simdjson_element_get_int64 E (some ⟨v⟩) true = (c, none) ∧ c ≠ 0)
    ∧ (E.get_uint64 v = .err c hc →
        simdjson_element_get_uint64 E (some ⟨v⟩) true = (c, none) ∧ c ≠ 0)
    ∧ (E.get_double v = .err c hc →
        simdjson_element_get_double E (some ⟨v⟩) true = (c, none) ∧ c ≠ 0)
    ∧ (E.get_bool v = .err c hc →
        simdjson_element_get_bool E (some ⟨v⟩) true = (c, none) ∧ c ≠ 0))
  ∧ simdjson_parse miniEngine mem42 (some ⟨()⟩) (some 0) 2 true
      = (0, some { stream := 0, json_data := 0, json_len := 2 })
  ∧ simdjson_element_get_int64 miniEngine
      (simdjson_document_root miniEngine mem42
        (some { stream := 0, json_data := 0, json_len := 2 })) true
      = (0, some 42)
  ∧ simdjson_element_get_string miniEngine
      (simdjson_document_root miniEngine mem42
        (some { stream := 0, json_data := 0, json_len := 2 })) true
      = (INCORRECT_TYPE, none)
  ∧ INCORRECT_TYPE ≠ 0 := by
  refine ⟨fun V E v c hc =>
    ⟨fun h => ⟨by simp [simdjson_element_get_string, h], hc⟩,
     fun h => ⟨by simp [simdjson_element_get_int64, h], hc⟩,
     fun h => ⟨by simp [simdjson_element_get_uint64, h], hc⟩,
     fun h => ⟨by simp [simdjson_element_get_double, h], hc⟩,
     fun h => ⟨by simp [simdjson_element_get_bool, h], hc⟩⟩,
    rfl, ?_, ?_, by decide⟩
  · rfl
  · rfl

/-- C5 witness: applying the pass-through contract to the modelled engine's
boolean extraction on the numeric root value 42. -/
theorem c5_type_mismatch_witness :
    simdjson_element_get_bool miniEngine (some ⟨.jint 42⟩) true
      = (INCORRECT_TYPE, none) ∧ INCORRECT_TYPE ≠ 0 :=
  (c5_type_mismatch_passthrough.1 JValue miniEngine (.jint 42) INCORRECT_TYPE
    (by decide)).2.2.2.2 rfl

/-- C8: `simdjson_document_root` returns null exactly when the document
handle is null, the underlying re-parse reports an error, or an exception
occurs; on a successful resolution it returns the non-null element holding
the root value.  The return type carries no status code, so no distinction
among the failure causes is exposed. -/
theorem c8_root_null_exactly_on_failure :
    ∀ (V : Type) (E : Engine V) (mem : Mem)
      (doc_ptr : Option SimdJsonDocumentImpl),
      (simdjson_document_root E mem doc_ptr = none ↔
        doc_ptr = none
        ∨ ∃ d, doc_ptr = some d
            ∧ ((E.parse_into_document mem d.json_data d.json_len).reportsError
              ∨ (E.parse_into_document mem d.json_data d.json_len).raised))
    ∧ ∀ (d : SimdJsonDocumentImpl) (v : V),
        E.parse_into_document mem d.json_data d.json_len = .ok v →
        simdjson_document_root E mem (some d) = some ⟨v⟩ := by
  intro V E mem doc_ptr
  constructor
  · cases doc_ptr with
    | none => simp [simdjson_document_root]
    | some d =>
      cases h : E.parse_into_document mem d.json_data d.json_len <;>
        simp [simdjson_document_root, h, EngineOutcome.reportsError,
          EngineOutcome.raised]
  · intro d v h
    simp [simdjson_document_root, h]

/-- C8 witness: a null document handle resolves to null, and a successful
re-parse of the stored 4-byte null document resolves to its root element. -/
theorem c8_root_null_witness :
    simdjson_document_root miniEngine memNull none = none
    ∧ simdjson_document_root miniEngine memNull
        (some { stream := 0, json_data := 0, json_len := 4 })
      = some ⟨.jnull⟩ :=
  ⟨(c8_root_null_exactly_on_failure JValue miniEngine memNull none).1.mpr
     (Or.inl rfl),
   (c8_root_null_exactly_on_failure JValue miniEngine memNull
     (some { stream := 0, json_data := 0, json_len := 4 })).2
     { stream := 0, json_data := 0, json_len := 4 } .jnull rfl⟩

/-- C9: each introspection operation returns only 0 or 1, and returns 1
exactly when the handle is live and the engine resolves the queried type —
so 0 uniformly covers null handles, resolution failures, and genuine
mismatches, with no separate error channel; concretely, parsing the 4-byte
document null and taking the root, IsNull returns 1 while IsObject and
IsArray return 0, and GetInt64 on the same root reports the nonzero
type-mismatch code. -/
theorem c9_introspection_boolean_contract :
    (∀ (V : Type) (E : Engine V) (ep : Option (SimdJsonElementImpl V)),
      (simdjson_element_is_object E ep = 1 ↔
        ∃ e, ep = some e ∧ E.type e.value = .ok .object)
    ∧ (simdjson_element_is_object E ep = 0
        ∨ simdjson_element_is_object E ep = 1)
    ∧ (simdjson_element_is_array E ep = 1 ↔
        ∃ e, ep = some e ∧ E.type e.value = .ok .array)
    ∧ (simdjson_element_is_array E ep = 0
        ∨ simdjson_element_is_array E ep = 1)
    ∧ (simdjson_element_is_null E ep = 1 ↔
        ∃ e, ep = some e ∧ E.type e.value = .ok .null)
    ∧ (simdjson_element_is_null E ep = 0
        ∨ simdjson_element_is_null E ep = 1))
  ∧ simdjson_parse miniEngine memNull (some ⟨()⟩) (some 0) 4 true
      = (0, some { stream := 0, json_data := 0, json_len := 4 })
  ∧ simdjson_element_is_null miniEngine
      (simdjson_document_root miniEngine memNull
        (some { stream := 0, json_data := 0, json_len := 4 })) = 1
  ∧ simdjson_element_is_object miniEngine
      (simdjson_document_root miniEngine memNull
        (some { stream := 0, json_data := 0, json_len := 4 })) = 0
  ∧ simdjson_element_is_array miniEngine
      (simdjson_document_root miniEngine memNull
        (some { stream := 0, json_data := 0, json_len := 4 })) = 0
  ∧ simdjson_element_get_int64 miniEngine
      (simdjson_document_root miniEngine memNull
        (some { stream := 0, json_data := 0, json_len := 4 })) true
      = (INCORRECT_TYPE, none)
  ∧ INCORRECT_TYPE ≠ 0 := by
  refine ⟨fun V E ep => ?_, rfl, rfl, rfl, rfl, rfl, by decide⟩
  cases ep with
  | none =>
    simp [simdjson_element_is_object, simdjson_element_is_array,
      simdjson_element_is_null]
  | some e =>
    cases h : E.type e.value with
    | ok t =>
      cases t <;>
        simp [simdjson_element_is_object, simdjson_element_is_array,
          simdjson_element_is_null, h]
    | err c hc =>
      simp [simdjson_element_is_object, simdjson_element_is_array,
        simdjson_element_is_null, h]
    | exn =>
      simp [simdjson_element_is_object, simdjson_element_is_array,
        simdjson_element_is_null, h]

/-- C9 witness: applying the boolean contract at the root element of the
null document: IsNull is 1 because the engine resolves type null. -/
theorem c9_introspection_witness :
    simdjson_element_is_null miniEngine (some ⟨.jnull⟩) = 1 :=
  ((c9_introspection_boolean_contract.1 JValue miniEngine
    (some ⟨.jnull⟩)).2.2.2.2.1).mpr ⟨⟨.jnull⟩, rfl, rfl⟩

/-- C2 counterexample: the claim's input, taken at its stated 9-byte length,
is the escaped character sequence backslash-quote-h-e-l-l-o-backslash-quote
(`hello9Bytes`); that input is not a well-formed JSON document: Parse
rejects it with a nonzero native code and allocates nothing, the root
resolves to null, and GetString on that null root returns (-1, untouched) —
not status 0 with a length-5 view.  The well-formed hello document has 7
bytes, not 9. -/
theorem c2_nine_byte_input_fails :
    simdjson_parse miniEngine hello9Mem (some ⟨()⟩) (some 0) 9 true
      = (TAPE_ERROR, none)
    ∧ TAPE_ERROR ≠ 0
    ∧ simdjson_document_root miniEngine hello9Mem
        (some { stream := 0, json_data := 0, json_len := 9 }) = none
    ∧ simdjson_element_get_string miniEngine
        (simdjson_document_root miniEngine hello9Mem
          (some { stream := 0, json_data := 0, json_len := 9 })) true
      = (-1, none)
    ∧ helloBytes.length = 7 :=
  ⟨rfl, by decide, rfl, rfl, rfl⟩

/-- C2 (amended: the hello document is the 7-byte input, not 9-byte): for
every input whose root is a JSON string, GetString through the
Parse-RootOf-GetString chain returns status 0 and a (pointer, length) view
lying within the original buffer's memory range `[buffer, buffer+length)` —
no copy, the pointer is a buffer address; in particular, after parsing the
7-byte input consisting of quote-h-e-l-l-o-quote, the view has length 5,
its bytes read from the buffer equal hello, and it lies inside the range. -/
theorem c2_get_string_zero_copy_view :
    (∀ (mem : Mem) (jptr len p l : Nat),
      mini_parse mem jptr len = .ok (.jstr p l) →
      simdjson_element_get_string miniEngine
        (simdjson_document_root miniEngine mem
          (some { stream := 0, json_data := jptr, json_len := len })) true
        = (0, some (p, l))
      ∧ jptr ≤ p ∧ p + l ≤ jptr + len)
  ∧ simdjson_parse miniEngine helloMem (some ⟨()⟩) (some 0) 7 true
      = (0, some { stream := 0, json_data := 0, json_len := 7 })
  ∧ simdjson_element_get_string miniEngine
      (simdjson_document_root miniEngine helloMem
        (some { stream := 0, json_data := 0, json_len := 7 })) true
      = (0, some (1, 5))
  ∧ readBytes helloMem 1 5 = [104, 101, 108, 108, 111]
  ∧ (0 : Nat) ≤ 1 ∧ 1 + 5 ≤ 0 + 7 := by
  refine ⟨fun mem jptr len p l h => ?_, rfl, rfl, by decide, by decide, by decide⟩
  have h' : parseBytes (readBytes mem jptr len) jptr = .ok (.jstr p l) := h
  have hb := parseBytes_jstr_bounds (readBytes mem jptr len) jptr p l h'
  rw [readBytes_length] at hb
  refine ⟨?_, by omega, hb.2⟩
  simp [simdjson_document_root, miniEngine, mini_parse, h',
    simdjson_element_get_string, mini_get_string]

/-- C2 witness: the general view-in-buffer bound applied to the hello
document located at address 0 with length 7. -/
theorem c2_get_string_zero_copy_witness :
    simdjson_element_get_string miniEngine
      (simdjson_document_root miniEngine helloMem
        (some { stream := 0, json_data := 0, json_len := 7 })) true
      = (0, some (1, 5))
    ∧ (0 : Nat) ≤ 1 ∧ 1 + 5 ≤ 0 + 7 :=
  c2_get_string_zero_copy_view.1 helloMem 0 7 1 5 rfl
